import Mathlib

/-!
Verification of the license-classification simulation engine of the
FUE License Optimizer backend (FastAPI + SQLAlchemy).  The Python
routines of `app/routers/example_router.py` and
`app/routers/simulator_router.py` are embedded shallowly as pure Lean
functions over explicit list-valued table states:

* `get_most_restrictive_license` — the classification resolver;
* `apply_simulation_changes`     — the snapshot reconciler;
* `get_simulation_license_classification_pivot_table` — the FUE
  aggregation pipeline (the SQL pivot query expressed over lists,
  with SQL `SUM` over zero rows yielding NULL, modelled as `none`);
* `run_simulation`               — the simulation-run orchestrator;
* `get_next_simulation_id_for_table` — run-id sequencing.

Strings model SQL text values; `Option String` models nullable
columns and Python `None`.
-/

namespace FueSim

/-- Python truthiness of an optional string value: `None` and the
empty string are falsy, every other string is truthy. -/
def truthy : Option String → Bool
  | none => false
  | some s => s ≠ ""

/-- `LICENSE_RESTRICTIVENESS_ORDER.get(lic, 0)` from `example_router.py`:
the fixed severity dictionary maps `GB Advanced Use` to 3, `GC Core Use`
to 2, `GD Self-Service Use` to 1, and both `'N/A'` and `None` to 0; the
`.get` default scores every other label 0 as well. -/
def LICENSE_RESTRICTIVENESS_ORDER (lic : Option String) : Int :=
  match lic with
  | none => 0
  | some s =>
    if s = "GB Advanced Use" then 3
    else if s = "GC Core Use" then 2
    else if s = "GD Self-Service Use" then 1
    else 0

/-- The accumulator loop inside `get_most_restrictive_license`: walk the
list keeping the current best label and its score, replacing the best
only on a strictly greater score. -/
def gmrLoop : List (Option String) → Option String → Int → Option String
  | [], best, _ => best
  | lic :: rest, best, maxScore =>
    if LICENSE_RESTRICTIVENESS_ORDER lic > maxScore then
      gmrLoop rest lic (LICENSE_RESTRICTIVENESS_ORDER lic)
    else
      gmrLoop rest best maxScore

/-- `get_most_restrictive_license(licenses)` from `example_router.py`:
returns `None` for an empty list, otherwise scans the list with
`most_restrictive = None`, `max_restrictiveness_score = -1`. -/
def get_most_restrictive_license (licenses : List (Option String)) : Option String :=
  if licenses.isEmpty then none
  else gmrLoop licenses none (-1)

/-- The maximal severity score occurring in a list (with the loop's
initial score `-1` as the base of the fold). -/
def maxRestrictivenessScore (licenses : List (Option String)) : Int :=
  licenses.foldr (fun l acc => max (LICENSE_RESTRICTIVENESS_ORDER l) acc) (-1)

/-- The three recognized license tiers, as they appear in lists handed to
the resolver. -/
def recognizedTierLabels : List (Option String) :=
  [some "GB Advanced Use", some "GC Core Use", some "GD Self-Service Use"]

/-- The `action` field of `SimulationChangePayload` is constrained by the
pydantic schema to `Literal["Add", "Change", "Remove"] | None`. -/
inductive SimAction where
  | add
  | change
  | remove
deriving DecidableEq, Repr

/-- `SimulationChangePayload` from `app/schema/SimulationChangePayload.py`. -/
structure SimulationChangePayload where
  role_id : String
  object : String
  field_name : String
  value_low : String
  value_high : String
  ttext : Option String
  classification : Option String
  action : Option SimAction
  new_value_ui_text : Option String
  is_new_object : Bool
  frontend_id : Int
deriving DecidableEq, Repr

/-- A row of the per-tenant `ROLE_OBJ_LIC_SIM` snapshot table
(`_BaseRoleObjLicSimData` in `app/models/dynamic_models.py`).  `OBJECT`
is declared NOT NULL; every other text column is nullable.  The
surrogate `id` column is omitted: the code never reads it. -/
structure RoleObjLicSimRecord where
  AGR_NAME : Option String
  AGR_TEXT : Option String
  OBJECT : String
  TTEXT : Option String
  FIELD : Option String
  LOW : Option String
  HIGH : Option String
  CLASSIF_S4 : Option String
  OPERATION : Option String
  NEW_VALUE : Option String
  NEW_SIM_LICE : Option String
deriving DecidableEq, Repr

/-- The composite-key tuples built in `apply_simulation_changes`.  The
`OBJECT` column is non-nullable, so it enters the tuple as a plain
string; the payload side injects its plain strings with `some`. -/
def SimKey : Type :=
  Option String × String × Option String × Option String × Option String
deriving DecidableEq

/-- `(rec.AGR_NAME, rec.OBJECT, rec.FIELD, rec.LOW, rec.HIGH)`. -/
def compositeKey (r : RoleObjLicSimRecord) : SimKey :=
  (r.AGR_NAME, r.OBJECT, r.FIELD, r.LOW, r.HIGH)

/-- `(change.role_id, change.object, change.field_name, change.value_low,
change.value_high)`; the pydantic schema makes all five plain strings, so
they are wrapped with `some` where the database column is nullable. -/
def payloadKey (c : SimulationChangePayload) : SimKey :=
  (some c.role_id, c.object, some c.field_name, some c.value_low, some c.value_high)

/-- A row of the `AUTH_OBJ_FIELD_LIC_DATA` reference table
(`_AuthObjFieldLicData` in `app/models/dynamic_models.py`).  `FIELD` is
NOT NULL; the remaining text columns are nullable. -/
structure AuthObjFieldLicRecord where
  AUTHORIZATION_OBJECT : Option String
  FIELD : String
  ACTIVITIY : Option String
  TEXT : Option String
  LICENSE : Option String
  UI_TEXT : Option String
deriving DecidableEq, Repr

/-- `get_license_for_add_operation` from `simulator_router.py`: filter the
reference table on `(AUTHORIZATION_OBJECT, FIELD, ACTIVITIY = value_low)`
and return the `(LICENSE, UI_TEXT)` of the first match, or `(None, None)`
when nothing matches. -/
def get_license_for_add_operation (authTable : List AuthObjFieldLicRecord)
    (authorization_object field value_low : String) : Option String × Option String :=
  match authTable.find? (fun r =>
      decide (r.AUTHORIZATION_OBJECT = some authorization_object ∧
        r.FIELD = field ∧ r.ACTIVITIY = some value_low)) with
  | some r => (r.LICENSE, r.UI_TEXT)
  | none => (none, none)

/-- Python's `str.split(sep)` for a one-character separator, over the
character sequence: every occurrence of the separator starts a new part,
and the empty string yields the single part `[""]`. -/
def pySplitChars (sep : Char) : List Char → List (List Char)
  | [] => [[]]
  | c :: cs =>
    match pySplitChars sep cs with
    | [] => if c = sep then [[], []] else [[c]]
    | h :: t => if c = sep then [] :: h :: t else (c :: h) :: t

/-- Python's `s.split(sep)` for a one-character separator. -/
def pySplit (sep : Char) (s : String) : List String :=
  (pySplitChars sep s.data).map List.asString

/-- The UI-text parse used for explicit `Change` operations: when
`new_value_ui_text` is truthy, split on `';'`; with at least three parts
the activity is part 0 and the license part 2, otherwise both stay
`None`. -/
def parseUiText (t : Option String) : Option String × Option String :=
  if truthy t then
    let parts := pySplit ';' (t.getD "")
    if 3 ≤ parts.length then (some (parts.getD 0 ""), some (parts.getD 2 ""))
    else (none, none)
  else (none, none)

/-- `frontend_changes_map.get(key)`: a Python dict built by inserting every
change keyed on its payload key keeps the last change per key. -/
def find_frontend_change (changes : List SimulationChangePayload) (k : SimKey) :
    Option SimulationChangePayload :=
  (changes.filter (fun c => decide (payloadKey c = k))).getLast?

/-- Step 1 of `apply_simulation_changes`, acting on one existing snapshot
row: an explicit `Change` stores the parsed activity/license, `Remove`
clears the proposed fields, an explicit null action and an absent change
both copy the original values forward, and an `Add` aimed at an existing
row leaves the row untouched (no branch of the source matches it). -/
def applyChangeToRecord (changes : List SimulationChangePayload)
    (r : RoleObjLicSimRecord) : RoleObjLicSimRecord :=
  match find_frontend_change changes (compositeKey r) with
  | none => { r with OPERATION := none, NEW_VALUE := r.LOW, NEW_SIM_LICE := r.CLASSIF_S4 }
  | some c =>
    match c.action with
    | some SimAction.change =>
      { r with OPERATION := some "Change",
               NEW_VALUE := (parseUiText c.new_value_ui_text).1,
               NEW_SIM_LICE := (parseUiText c.new_value_ui_text).2 }
    | some SimAction.remove =>
      { r with OPERATION := some "Remove", NEW_VALUE := none, NEW_SIM_LICE := none }
    | none => { r with OPERATION := none, NEW_VALUE := r.LOW, NEW_SIM_LICE := r.CLASSIF_S4 }
    | some SimAction.add => r

/-- Whether step 1 increments `records_changed` for a given existing row:
it does for an explicit `Change`, an explicit null action, and an absent
change (implicit copy-forward). -/
def step1CountsChanged (changes : List SimulationChangePayload)
    (r : RoleObjLicSimRecord) : Bool :=
  match find_frontend_change changes (compositeKey r) with
  | none => true
  | some c =>
    match c.action with
    | some SimAction.change => true
    | none => true
    | _ => false

/-- Whether step 1 increments `records_removed` for a given existing row:
only for an explicit `Remove`. -/
def step1CountsRemoved (changes : List SimulationChangePayload)
    (r : RoleObjLicSimRecord) : Bool :=
  match find_frontend_change changes (compositeKey r) with
  | some c => decide (c.action = some SimAction.remove)
  | none => false

/-- Whether step 1 increments either counter for a given existing row:
every row except one matched by an `Add` change. -/
def countedInStep1 (changes : List SimulationChangePayload)
    (r : RoleObjLicSimRecord) : Bool :=
  match find_frontend_change changes (compositeKey r) with
  | some c => decide (c.action ≠ some SimAction.add)
  | none => true

/-- The license stored on a freshly synthesized `Add` row: the reference
lookup's license, or — when that is falsy and the UI text is truthy and
splits into at least three parts — the UI text's third part. -/
def addNewLicense (authTable : List AuthObjFieldLicRecord)
    (c : SimulationChangePayload) : Option String :=
  let fetched := (get_license_for_add_operation authTable c.object c.field_name c.value_low).1
  if !truthy fetched && truthy c.new_value_ui_text then
    let parts := pySplit ';' (c.new_value_ui_text.getD "")
    if 3 ≤ parts.length then some (parts.getD 2 "") else fetched
  else fetched

/-- The row synthesized in step 3 of `apply_simulation_changes` for an
`Add` change whose key is not in the snapshot. -/
def newRecordForAdd (authTable : List AuthObjFieldLicRecord)
    (c : SimulationChangePayload) : RoleObjLicSimRecord :=
  { AGR_NAME := some c.role_id, AGR_TEXT := none, OBJECT := c.object,
    TTEXT := c.ttext, FIELD := some c.field_name, LOW := some c.value_low,
    HIGH := some c.value_high, CLASSIF_S4 := c.classification,
    OPERATION := some "Add", NEW_VALUE := some c.value_low,
    NEW_SIM_LICE := addNewLicense authTable c }

/-- The step-3 guard: the change is tagged `Add` and no existing snapshot
row carries its composite key. -/
def isAddNotExisting (records : List RoleObjLicSimRecord)
    (c : SimulationChangePayload) : Bool :=
  decide (c.action = some SimAction.add) &&
    (records.find? (fun r => decide (compositeKey r = payloadKey c))).isNone

/-- The observable outcome of `apply_simulation_changes`: the table
content after the commit plus the three counters of the response body. -/
structure ApplyChangesResult where
  records : List RoleObjLicSimRecord
  added_records : Nat
  changed_records : Nat
  removed_records : Nat
deriving DecidableEq, Repr

/-- `apply_simulation_changes` from `simulator_router.py`, as a function
of the snapshot table, the change batch, and the reference table.  The
model iterates the snapshot rows directly where the source iterates its
key-indexed dict of them, so it is faithful for snapshots whose rows have
pairwise-distinct composite keys (the data-model invariant); theorems
carry that hypothesis. -/
def apply_simulation_changes (records : List RoleObjLicSimRecord)
    (changes : List SimulationChangePayload)
    (authTable : List AuthObjFieldLicRecord) : ApplyChangesResult :=
  let updated := records.map (applyChangeToRecord changes)
  let adds := (changes.filter (isAddNotExisting records)).map (newRecordForAdd authTable)
  { records := updated ++ adds,
    added_records := adds.length,
    changed_records := records.countP (step1CountsChanged changes),
    removed_records := records.countP (step1CountsRemoved changes) }

/-- A row of the per-tenant `USER_ROLE_MAPPING` table (`UserRoleMapping`
in `dynamic_models.py`): `AGR_NAME` is NOT NULL, `UNAME` nullable. -/
structure UserRoleMappingRecord where
  AGR_NAME : String
  UNAME : Option String
deriving DecidableEq, Repr

/-- The `IN ('GB Advanced Use', 'GC Core Use', 'GD Self-Service Use')`
filter of the pivot query. -/
def recognizedTier (s : String) : Bool :=
  s = "GB Advanced Use" || s = "GC Core Use" || s = "GD Self-Service Use"

/-- The `CASE ... WHEN 'GB Advanced Use' THEN 1 ... ELSE 99` ordering key
of the pivot query. -/
def licPriority (s : String) : Nat :=
  if s = "GB Advanced Use" then 1
  else if s = "GC Core Use" then 2
  else if s = "GD Self-Service Use" then 3
  else 99

/-- `DISTINCT ON` + `ORDER BY` priority: the first license of minimal
priority in a group.  Groups are nonempty wherever this is applied; the
empty case returns a dummy. -/
def minPriorityLicense : List String → String
  | [] => ""
  | l :: t => t.foldl (fun b x => if licPriority x < licPriority b then x else b) l

/-- The `role_license_classification` CTE: one entry per role having at
least one recognized-tier `NEW_SIM_LICE` row, carrying the most
restrictive such license.  Output order is irrelevant downstream. -/
def role_license_classification (sim : List RoleObjLicSimRecord) :
    List (Option String × String) :=
  let rows := sim.filter (fun r =>
    match r.NEW_SIM_LICE with
    | some s => recognizedTier s
    | none => false)
  let roles := (rows.map (·.AGR_NAME)).dedup
  roles.map (fun rl =>
    (rl, minPriorityLicense
      ((rows.filter (fun r => decide (r.AGR_NAME = rl))).filterMap (·.NEW_SIM_LICE))))

/-- The `user_final_license` CTE: join the user-role mapping against the
role classification (at most one classification entry per role) and keep,
per distinct user, the most restrictive license across the user's
roles. -/
def user_final_license (urm : List UserRoleMappingRecord)
    (rlc : List (Option String × String)) : List (Option String × String) :=
  let joined := urm.filterMap (fun u =>
    (rlc.find? (fun p => decide (p.1 = some u.AGR_NAME))).map (fun p => (u.UNAME, p.2)))
  let users := (joined.map (·.1)).dedup
  users.map (fun u =>
    (u, minPriorityLicense ((joined.filter (fun p => decide (p.1 = u))).map (·.2))))

/-- The row produced by the `fue_summary` CTE.  The four `CEIL(SUM(...))`
columns are nullable: SQL `SUM` over zero input rows is NULL. -/
structure FueSummary where
  total_users : Nat
  gb_users : Nat
  gc_users : Nat
  gd_users : Nat
  gb_fue : Option Int
  gc_fue : Option Int
  gd_fue : Option Int
  total_fue_required : Option Int
deriving DecidableEq, Repr

/-- `CEIL(SUM(f(row) for row in rows))` with SQL semantics: NULL on an
empty row set, otherwise the ceiling of the exact numeric sum. -/
def sqlCeilSum {α : Type} (rows : List α) (f : α → ℚ) : Option Int :=
  match rows with
  | [] => none
  | _ => some ⌈(rows.map f).sum⌉

/-- `CASE WHEN final_license = 'GB Advanced Use' THEN 1.0 ELSE 0 END`. -/
def gbTerm (l : String) : ℚ := if l = "GB Advanced Use" then 1 else 0

/-- `CASE WHEN final_license = 'GC Core Use' THEN 1.0 / 5 ELSE 0 END`. -/
def gcTerm (l : String) : ℚ := if l = "GC Core Use" then 1 / 5 else 0

/-- `CASE WHEN final_license = 'GD Self-Service Use' THEN 1.0 / 30 ELSE 0 END`. -/
def gdTerm (l : String) : ℚ := if l = "GD Self-Service Use" then 1 / 30 else 0

/-- The `CASE` expression inside `total_fue_required`: each user
contributes their tier weight to a single fractional sum. -/
def totalTerm (l : String) : ℚ :=
  if l = "GB Advanced Use" then 1
  else if l = "GC Core Use" then 1 / 5
  else if l = "GD Self-Service Use" then 1 / 30
  else 0

/-- The `fue_summary` CTE over the `user_final_license` rows. -/
def fue_summary (ufl : List (Option String × String)) : FueSummary :=
  { total_users := ufl.length,
    gb_users := ufl.countP (fun p => decide (p.2 = "GB Advanced Use")),
    gc_users := ufl.countP (fun p => decide (p.2 = "GC Core Use")),
    gd_users := ufl.countP (fun p => decide (p.2 = "GD Self-Service Use")),
    gb_fue := sqlCeilSum ufl (fun p => gbTerm p.2),
    gc_fue := sqlCeilSum ufl (fun p => gcTerm p.2),
    gd_fue := sqlCeilSum ufl (fun p => gdTerm p.2),
    total_fue_required := sqlCeilSum ufl (fun p => totalTerm p.2) }

/-- The pivot query of
`get_simulation_license_classification_pivot_table` in
`example_router.py`, end to end: role classification, user effective
license, FUE summary. -/
def get_simulation_license_classification_pivot_table
    (sim : List RoleObjLicSimRecord) (urm : List UserRoleMappingRecord) : FueSummary :=
  fue_summary (user_final_license urm (role_license_classification sim))

/-- A row of the per-tenant `SIMULATION_RESULT_DATA` table
(`_SimResultData` in `dynamic_models.py`), restricted to the columns
`run_simulation` writes or leaves NULL. -/
structure SimulationResultRecord where
  SIMULATION_RUN_ID : String
  TIMESTAMP : String
  STATUS : Option String
  CLIENT_NAME : String
  SYSTEM_NAME : String
  FUE_REQUIRED : String
  ROLES_CHANGED : Option String
  ROLE_DESCRIPTION : Option String
  OBJECT : Option String
  FIELD : Option String
  VALUE_LOW : Option String
  VALUE_HIGH : Option String
  OPERATION : Option String
  PREV_LICENSE : Option String
  CURRENT_LICENSE : Option String
deriving DecidableEq, Repr

/-- The per-role dictionaries of `run_simulation`: collect, in row order,
the truthy values of one license column for a role, then resolve the most
restrictive one.  `vals` is `CLASSIF_S4` for the previous license and
`NEW_SIM_LICE` for the current one. -/
def mostRestrictiveByRole (vals : RoleObjLicSimRecord → Option String)
    (sim : List RoleObjLicSimRecord) (role : Option String) : Option String :=
  get_most_restrictive_license
    ((sim.filter (fun r => decide (r.AGR_NAME = role))).filterMap
      (fun r => if truthy (vals r) then some (vals r) else none))

/-- Python's `str(total_fue_required)` where the value came from the
nullable `total_fue_required` column: `None` prints as `"None"`. -/
def pyStrOfTotal : Option Int → String
  | none => "None"
  | some z => toString z

/-- The result rows inserted by `run_simulation` in `example_router.py`:
one row per snapshot record with a non-null `OPERATION`, all sharing the
run id, timestamp, and stringified total FUE; `STATUS` and
`ROLE_DESCRIPTION` are never assigned and stay NULL. -/
def run_simulation_inserted_records (sim : List RoleObjLicSimRecord)
    (urm : List UserRoleMappingRecord)
    (runId ts client system : String) : List SimulationResultRecord :=
  let total := (get_simulation_license_classification_pivot_table sim urm).total_fue_required
  (sim.filter (fun r => r.OPERATION.isSome)).map (fun r =>
    { SIMULATION_RUN_ID := runId, TIMESTAMP := ts, STATUS := none,
      CLIENT_NAME := client, SYSTEM_NAME := system,
      FUE_REQUIRED := pyStrOfTotal total, ROLES_CHANGED := r.AGR_NAME,
      ROLE_DESCRIPTION := none, OBJECT := some r.OBJECT, FIELD := r.FIELD,
      VALUE_LOW := r.LOW, VALUE_HIGH := r.HIGH, OPERATION := r.OPERATION,
      PREV_LICENSE := mostRestrictiveByRole (·.CLASSIF_S4) sim r.AGR_NAME,
      CURRENT_LICENSE := mostRestrictiveByRole (·.NEW_SIM_LICE) sim r.AGR_NAME })

/-- The persistent state `run_simulation` leaves behind: the result table
and the snapshot table, plus whether the endpoint answered 200. -/
structure RunSimulationState where
  result_table : List SimulationResultRecord
  snapshot : List RoleObjLicSimRecord
  success : Bool
deriving DecidableEq, Repr

/-- The control flow of `run_simulation`: `mainOk` is whether the body up
to and including the result-row commit raises, `deleteOk` whether the
nested snapshot-delete try block succeeds.  On a body exception
everything is rolled back and the snapshot survives; on success the
result rows are committed and the snapshot is cleared only when the
delete itself succeeds (its failure is caught, rolled back, and the run
still reports success). -/
def run_simulation (sim : List RoleObjLicSimRecord)
    (urm : List UserRoleMappingRecord)
    (resultTable : List SimulationResultRecord)
    (runId ts client system : String) (mainOk deleteOk : Bool) : RunSimulationState :=
  if mainOk then
    { result_table := resultTable ++ run_simulation_inserted_records sim urm runId ts client system,
      snapshot := if deleteOk then [] else sim,
      success := true }
  else
    { result_table := resultTable, snapshot := sim, success := false }

/-- Python's `str.startswith(p)`, over the character sequences. -/
def pyStartsWith (s p : String) : Bool :=
  p.data.isPrefixOf s.data

/-- Python's `int(s)` builtin on the strings of interest: optional
surrounding whitespace, an optional sign, then at least one ASCII digit
(the underscore-separator and non-ASCII digit forms are out of scope
here); `None` on failure stands for the raised `ValueError`. -/
def pyInt (s : String) : Option Int :=
  let t := ((s.data.dropWhile Char.isWhitespace).reverse.dropWhile Char.isWhitespace).reverse
  let signed : Int × List Char :=
    match t with
    | '-' :: rest => (-1, rest)
    | '+' :: rest => (1, rest)
    | _ => (1, t)
  if !signed.2.isEmpty && signed.2.all (·.isDigit) then
    some (signed.1 * (signed.2.foldl (fun acc ch => acc * 10 + (ch.toNat - 48)) (0 : Nat) : Nat))
  else none

/-- `get_next_simulation_id_for_table` from `example_router.py`, as a
function of the lexicographically greatest persisted `SIM%` run id (or
`None` when the table has none): increment the numeric suffix, falling
back to 100000 when there is no record or the suffix does not parse. -/
def get_next_simulation_id_for_table (latest : Option String) : String :=
  match latest with
  | some s =>
    if pyStartsWith s "SIM" then
      match pyInt (s.drop 3) with
      | some n => "SIM" ++ toString (n + 1)
      | none => "SIM" ++ toString (100000 : Nat)
    else "SIM" ++ toString (100000 : Nat)
  | none => "SIM" ++ toString (100000 : Nat)

/-- A sample snapshot row used by concrete witnesses. -/
def sampleRecord : RoleObjLicSimRecord :=
  { AGR_NAME := some "R1", AGR_TEXT := none, OBJECT := "S_TCODE",
    TTEXT := none, FIELD := some "TCD", LOW := some "F-01", HIGH := some "",
    CLASSIF_S4 := some "GB Advanced Use", OPERATION := none,
    NEW_VALUE := none, NEW_SIM_LICE := none }

/-- The spec scenario's `Add` change for (R2, S_TCODE, TCD, F-02, "")
with UI-text fallback `"F-02;Post Document;GC Core Use"`. -/
def addScenarioChange : SimulationChangePayload :=
  { role_id := "R2", object := "S_TCODE", field_name := "TCD",
    value_low := "F-02", value_high := "", ttext := none,
    classification := none, action := some SimAction.add,
    new_value_ui_text := some "F-02;Post Document;GC Core Use",
    is_new_object := true, frontend_id := 1 }

/-- An `Add` change aimed at `sampleRecord`'s own composite key. -/
def addAtExistingKeyChange : SimulationChangePayload :=
  { role_id := "R1", object := "S_TCODE", field_name := "TCD",
    value_low := "F-01", value_high := "", ttext := none,
    classification := none, action := some SimAction.add,
    new_value_ui_text := none, is_new_object := false, frontend_id := 2 }

/-- A one-row snapshot whose single row has a pending operation. -/
def changedSnapshot : List RoleObjLicSimRecord :=
  [{ sampleRecord with
     OPERATION := some "Change",
     NEW_VALUE := some "F-01",
     NEW_SIM_LICE := some "GC Core Use" }]

/-- The result row `run_simulation` inserts for `changedSnapshot` with an
empty user-role mapping, run id `SIM100000` and the fixed timestamp. -/
def sampleInsertedRecord : SimulationResultRecord :=
  { SIMULATION_RUN_ID := "SIM100000", TIMESTAMP := "2026-01-01 00:00:00",
    STATUS := none, CLIENT_NAME := "c", SYSTEM_NAME := "s",
    FUE_REQUIRED := "None", ROLES_CHANGED := some "R1",
    ROLE_DESCRIPTION := none, OBJECT := some "S_TCODE", FIELD := some "TCD",
    VALUE_LOW := some "F-01", VALUE_HIGH := some "",
    OPERATION := some "Change", PREV_LICENSE := some "GB Advanced Use",
    CURRENT_LICENSE := some "GC Core Use" }

theorem score_nonneg (l : Option String) : 0 ≤ LICENSE_RESTRICTIVENESS_ORDER l := by
  cases l with
  | none => simp [LICENSE_RESTRICTIVENESS_ORDER]
  | some s =>
    simp only [LICENSE_RESTRICTIVENESS_ORDER]
    split <;> norm_num
    split <;> norm_num
    split <;> norm_num

theorem le_maxRestrictivenessScore {x : Option String} {l : List (Option String)}
    (hx : x ∈ l) : LICENSE_RESTRICTIVENESS_ORDER x ≤ maxRestrictivenessScore l := by
  induction l with
  | nil => cases hx
  | cons a t ih =>
    rcases List.mem_cons.mp hx with h | h
    · subst h; exact le_max_left _ _
    · exact le_trans (ih h) (le_max_right _ _)

theorem maxRestrictivenessScore_le {l : List (Option String)} {c : Int}
    (hb : -1 ≤ c) (h : ∀ x ∈ l, LICENSE_RESTRICTIVENESS_ORDER x ≤ c) :
    maxRestrictivenessScore l ≤ c := by
  induction l with
  | nil => exact hb
  | cons a t ih =>
    simp only [maxRestrictivenessScore, List.foldr_cons] at *
    exact max_le (h a (List.mem_cons_self a t)) (ih fun x hx => h x (List.mem_cons_of_mem a hx))

theorem gmrLoop_of_all_le {l : List (Option String)} (best : Option String) (m : Int)
    (h : ∀ x ∈ l, LICENSE_RESTRICTIVENESS_ORDER x ≤ m) : gmrLoop l best m = best := by
  induction l generalizing best m with
  | nil => rfl
  | cons a t ih =>
    simp only [gmrLoop]
    rw [if_neg (by exact not_lt.mpr (h a (List.mem_cons_self a t)))]
    exact ih best m fun x hx => h x (List.mem_cons_of_mem a hx)

theorem gmrLoop_spec {l : List (Option String)} (best : Option String) (m : Int)
    (h : ∃ x ∈ l, m < LICENSE_RESTRICTIVENESS_ORDER x) :
    gmrLoop l best m ∈ l ∧
      LICENSE_RESTRICTIVENESS_ORDER (gmrLoop l best m) = maxRestrictivenessScore l := by
  induction l generalizing best m with
  | nil => rcases h with ⟨x, hx, _⟩; cases hx
  | cons a t ih =>
    by_cases ha : LICENSE_RESTRICTIVENESS_ORDER a > m
    · simp only [gmrLoop, if_pos ha]
      by_cases ht : ∃ x ∈ t, LICENSE_RESTRICTIVENESS_ORDER a < LICENSE_RESTRICTIVENESS_ORDER x
      · obtain ⟨hmem, hsc⟩ := ih a (LICENSE_RESTRICTIVENESS_ORDER a) ht
        refine ⟨List.mem_cons_of_mem a hmem, ?_⟩
        rw [hsc]
        have h1 : maxRestrictivenessScore (a :: t) =
            max (LICENSE_RESTRICTIVENESS_ORDER a) (maxRestrictivenessScore t) := rfl
        rcases ht with ⟨x, hxmem, hxlt⟩
        have : LICENSE_RESTRICTIVENESS_ORDER a ≤ maxRestrictivenessScore t :=
          le_trans (le_of_lt hxlt) (le_maxRestrictivenessScore hxmem)
        rw [h1, max_eq_right this]
      · push_neg at ht
        rw [gmrLoop_of_all_le a (LICENSE_RESTRICTIVENESS_ORDER a) ht]
        refine ⟨List.mem_cons_self a t, ?_⟩
        have h1 : maxRestrictivenessScore (a :: t) =
            max (LICENSE_RESTRICTIVENESS_ORDER a) (maxRestrictivenessScore t) := rfl
        have h2 : maxRestrictivenessScore t ≤ LICENSE_RESTRICTIVENESS_ORDER a :=
          maxRestrictivenessScore_le
            (le_trans (by norm_num) (score_nonneg a)) ht
        rw [h1, max_eq_left h2]
    · simp only [gmrLoop, if_neg ha]
      have hwt : ∃ x ∈ t, m < LICENSE_RESTRICTIVENESS_ORDER x := by
        rcases h with ⟨x, hx, hlt⟩
        rcases List.mem_cons.mp hx with rfl | hx'
        · exact absurd hlt ha
        · exact ⟨x, hx', hlt⟩
      obtain ⟨hmem, hsc⟩ := ih best m hwt
      refine ⟨List.mem_cons_of_mem a hmem, ?_⟩
      rw [hsc]
      have h1 : maxRestrictivenessScore (a :: t) =
          max (LICENSE_RESTRICTIVENESS_ORDER a) (maxRestrictivenessScore t) := rfl
      rcases hwt with ⟨x, hxmem, hxlt⟩
      have : LICENSE_RESTRICTIVENESS_ORDER a ≤ maxRestrictivenessScore t :=
        le_trans (not_lt.mp ha)
          (le_trans (le_of_lt hxlt) (le_maxRestrictivenessScore hxmem))
      rw [h1, max_eq_right this]

theorem get_most_restrictive_mem_max {L : List (Option String)} (hne : L ≠ []) :
    get_most_restrictive_license L ∈ L ∧
      LICENSE_RESTRICTIVENESS_ORDER (get_most_restrictive_license L) =
        maxRestrictivenessScore L := by
  have hex : ∃ x ∈ L, (-1 : Int) < LICENSE_RESTRICTIVENESS_ORDER x := by
    cases L with
    | nil => exact absurd rfl hne
    | cons a t =>
      exact ⟨a, List.mem_cons_self a t,
        lt_of_lt_of_le (by norm_num) (score_nonneg a)⟩
  have he : get_most_restrictive_license L = gmrLoop L none (-1) := by
    unfold get_most_restrictive_license
    rw [if_neg (by simpa using hne)]
  rw [he]
  exact gmrLoop_spec none (-1) hex

theorem maxRestrictivenessScore_perm {L₁ L₂ : List (Option String)}
    (h : L₁.Perm L₂) : maxRestrictivenessScore L₁ = maxRestrictivenessScore L₂ := by
  induction h with
  | nil => rfl
  | cons x _ ih =>
    simp only [maxRestrictivenessScore, List.foldr_cons] at *
    rw [ih]
  | swap x y l =>
    simp only [maxRestrictivenessScore, List.foldr_cons]
    rw [max_left_comm]
  | trans _ _ ih₁ ih₂ => exact ih₁.trans ih₂

theorem tier_score_inj {x y : Option String}
    (hx : x ∈ recognizedTierLabels) (hy : y ∈ recognizedTierLabels)
    (h : LICENSE_RESTRICTIVENESS_ORDER x = LICENSE_RESTRICTIVENESS_ORDER y) : x = y := by
  fin_cases hx <;> fin_cases hy <;> revert h <;> decide

/-- C2 (corrected): for every input list, `get_most_restrictive_license`
returns an element of the list attaining the maximal severity score under
GB Advanced Use (3) > GC Core Use (2) > GD Self-Service Use (1) >
everything else (0); when every input scores 0 — all unrecognized or
null — it returns the FIRST input element, which is null only if that
element is null (not unconditionally null as claimed). -/
theorem get_most_restrictive_license_spec (L : List (Option String)) :
    (L ≠ [] → get_most_restrictive_license L ∈ L ∧
      LICENSE_RESTRICTIVENESS_ORDER (get_most_restrictive_license L) =
        maxRestrictivenessScore L) ∧
    ((∀ x ∈ L, LICENSE_RESTRICTIVENESS_ORDER x = 0) →
      get_most_restrictive_license L = L.headD none) := by
  constructor
  · exact fun hne => get_most_restrictive_mem_max hne
  · intro h0
    cases L with
    | nil => rfl
    | cons a t =>
      have ha : LICENSE_RESTRICTIVENESS_ORDER a = 0 := h0 a (List.mem_cons_self a t)
      unfold get_most_restrictive_license
      rw [if_neg (by simp)]
      simp only [gmrLoop, ha]
      rw [if_pos (by norm_num)]
      rw [gmrLoop_of_all_le a 0
        (fun x hx => le_of_eq (h0 x (List.mem_cons_of_mem a hx)))]
      rfl

/-- Witness for C2's theorem at the concrete input `[null]`: the result
is a member attaining the maximal score, and with every input scoring 0
the result is the first element. -/
theorem get_most_restrictive_license_spec_witness :
    (get_most_restrictive_license [none] ∈ ([none] : List (Option String)) ∧
      LICENSE_RESTRICTIVENESS_ORDER (get_most_restrictive_license [none]) =
        maxRestrictivenessScore [none]) ∧
    get_most_restrictive_license [none] = ([none] : List (Option String)).headD none :=
  ⟨(get_most_restrictive_license_spec [none]).1 (by simp),
   (get_most_restrictive_license_spec [none]).2 (by decide)⟩

/-- Counterexample to C2 as stated: with the single unrecognized label
`"FOO"` (score 0) the function returns `some "FOO"`, not null. -/
theorem get_most_restrictive_license_unrecognized_cex :
    get_most_restrictive_license [some "FOO"] = some "FOO" ∧
    LICENSE_RESTRICTIVENESS_ORDER (some "FOO") = 0 ∧
    (some "FOO" : Option String) ≠ none := by decide

/-- C4 (corrected): re-applying the resolver to its own output wrapped as
a singleton is the identity, and the result is invariant under input
reordering whenever every input is one of the three recognized tier
labels; with distinct score-0 inputs the result is order-dependent. -/
theorem get_most_restrictive_license_idem_and_tier_perm
    (L L₁ L₂ : List (Option String)) :
    get_most_restrictive_license [get_most_restrictive_license L] =
      get_most_restrictive_license L ∧
    (L₁.Perm L₂ → (∀ x ∈ L₁, x ∈ recognizedTierLabels) →
      get_most_restrictive_license L₁ = get_most_restrictive_license L₂) := by
  constructor
  · show (if ([get_most_restrictive_license L] : List (Option String)).isEmpty then none
      else gmrLoop [get_most_restrictive_license L] none (-1)) =
      get_most_restrictive_license L
    rw [if_neg (by simp)]
    simp only [gmrLoop]
    rw [if_pos (lt_of_lt_of_le (by norm_num) (score_nonneg _))]
  · intro hperm htier
    rcases eq_or_ne L₁ [] with h1 | h1
    · subst h1
      rw [List.Perm.eq_nil hperm.symm]
    · have h2 : L₂ ≠ [] := fun h => h1 (List.Perm.eq_nil (h ▸ hperm))
      obtain ⟨m1, s1⟩ := get_most_restrictive_mem_max h1
      obtain ⟨m2, s2⟩ := get_most_restrictive_mem_max h2
      have htier₂ : ∀ x ∈ L₂, x ∈ recognizedTierLabels :=
        fun x hx => htier x (hperm.mem_iff.mpr hx)
      exact tier_score_inj (htier _ m1) (htier₂ _ m2)
        (by rw [s1, s2, maxRestrictivenessScore_perm hperm])

/-- Witness for C4's theorem: idempotence at `[GC Core Use]` and
order-invariance for the recognized-tier lists `[GB, GC]` and
`[GC, GB]`. -/
theorem get_most_restrictive_license_idem_and_tier_perm_witness :
    get_most_restrictive_license
        [get_most_restrictive_license [some "GC Core Use"]] =
      get_most_restrictive_license [some "GC Core Use"] ∧
    get_most_restrictive_license [some "GB Advanced Use", some "GC Core Use"] =
      get_most_restrictive_license [some "GC Core Use", some "GB Advanced Use"] :=
  ⟨(get_most_restrictive_license_idem_and_tier_perm [some "GC Core Use"]
      [some "GB Advanced Use", some "GC Core Use"]
      [some "GC Core Use", some "GB Advanced Use"]).1,
   (get_most_restrictive_license_idem_and_tier_perm [some "GC Core Use"]
      [some "GB Advanced Use", some "GC Core Use"]
      [some "GC Core Use", some "GB Advanced Use"]).2
     (List.Perm.swap _ _ _) (by decide)⟩

/-- Counterexample to C4 as stated: `['N/A', null]` and `[null, 'N/A']`
are permutations of each other but resolve to `'N/A'` and to null
respectively, so the result is not invariant under reordering. -/
theorem get_most_restrictive_license_order_cex :
    List.Perm [some "N/A", (none : Option String)] [none, some "N/A"] ∧
    get_most_restrictive_license [some "N/A", none] = some "N/A" ∧
    get_most_restrictive_license [none, some "N/A"] = none ∧
    (some "N/A" : Option String) ≠ none :=
  ⟨List.Perm.swap _ _ _, by decide, by decide, by decide⟩

theorem sum_gbTerm (ufl : List (Option String × String)) :
    (ufl.map (fun p => gbTerm p.2)).sum =
      (ufl.countP (fun p => decide (p.2 = "GB Advanced Use")) : ℚ) := by
  induction ufl with
  | nil => simp
  | cons a t ih =>
    rw [List.map_cons, List.sum_cons, List.countP_cons, ih]
    by_cases h : a.2 = "GB Advanced Use"
    · simp [gbTerm, h]
      ring
    · simp [gbTerm, h]

theorem sum_gcTerm (ufl : List (Option String × String)) :
    (ufl.map (fun p => gcTerm p.2)).sum =
      (ufl.countP (fun p => decide (p.2 = "GC Core Use")) : ℚ) / 5 := by
  induction ufl with
  | nil => simp
  | cons a t ih =>
    rw [List.map_cons, List.sum_cons, List.countP_cons, ih]
    by_cases h : a.2 = "GC Core Use"
    · simp [gcTerm, h]
      ring
    · simp [gcTerm, h]

theorem sum_gdTerm (ufl : List (Option String × String)) :
    (ufl.map (fun p => gdTerm p.2)).sum =
      (ufl.countP (fun p => decide (p.2 = "GD Self-Service Use")) : ℚ) / 30 := by
  induction ufl with
  | nil => simp
  | cons a t ih =>
    rw [List.map_cons, List.sum_cons, List.countP_cons, ih]
    by_cases h : a.2 = "GD Self-Service Use"
    · simp [gdTerm, h]
      ring
    · simp [gdTerm, h]

theorem sum_totalTerm (ufl : List (Option String × String)) :
    (ufl.map (fun p => totalTerm p.2)).sum =
      (ufl.countP (fun p => decide (p.2 = "GB Advanced Use")) : ℚ) +
      (ufl.countP (fun p => decide (p.2 = "GC Core Use")) : ℚ) / 5 +
      (ufl.countP (fun p => decide (p.2 = "GD Self-Service Use")) : ℚ) / 30 := by
  induction ufl with
  | nil => simp
  | cons a t ih =>
    rw [List.map_cons, List.sum_cons, List.countP_cons, List.countP_cons,
      List.countP_cons, ih]
    by_cases h1 : a.2 = "GB Advanced Use"
    · simp [totalTerm, h1]
      ring
    · by_cases h2 : a.2 = "GC Core Use"
      · simp [totalTerm, h1, h2]
        ring
      · by_cases h3 : a.2 = "GD Self-Service Use"
        · simp [totalTerm, h1, h2, h3]
          ring
        · simp [totalTerm, h1, h2, h3]

/-- C1 (corrected): over any nonempty user partition, each per-tier FUE
is `ceil(user_count × tier_weight)` with weights 1, 1/5, 1/30 — but the
grand total is the ceiling of the single summed fractional contribution
`gb + gc/5 + gd/30`, i.e. rounding is applied once to the grand total,
NOT per tier before summing as the claim states. -/
theorem fue_summary_spec (ufl : List (Option String × String)) (hne : ufl ≠ []) :
    (fue_summary ufl).gb_fue = some ((fue_summary ufl).gb_users : Int) ∧
    (fue_summary ufl).gc_fue = some ⌈((fue_summary ufl).gc_users : ℚ) * (1 / 5)⌉ ∧
    (fue_summary ufl).gd_fue = some ⌈((fue_summary ufl).gd_users : ℚ) * (1 / 30)⌉ ∧
    (fue_summary ufl).total_fue_required =
      some ⌈((fue_summary ufl).gb_users : ℚ) +
        ((fue_summary ufl).gc_users : ℚ) / 5 +
        ((fue_summary ufl).gd_users : ℚ) / 30⌉ := by
  obtain ⟨a, t, rfl⟩ := List.exists_cons_of_ne_nil hne
  refine ⟨?_, ?_, ?_, ?_⟩
  · show some ⌈((a :: t).map (fun p => gbTerm p.2)).sum⌉ = _
    rw [sum_gbTerm]
    simp [fue_summary, Int.ceil_natCast]
  · show some ⌈((a :: t).map (fun p => gcTerm p.2)).sum⌉ = _
    rw [sum_gcTerm]
    simp only [fue_summary]
    rw [mul_one_div]
  · show some ⌈((a :: t).map (fun p => gdTerm p.2)).sum⌉ = _
    rw [sum_gdTerm]
    simp only [fue_summary]
    rw [mul_one_div]
  · show some ⌈((a :: t).map (fun p => totalTerm p.2)).sum⌉ = _
    rw [sum_totalTerm]
    rfl

/-- Witness for C1's theorem at a concrete three-user partition. -/
theorem fue_summary_spec_witness :
    (fue_summary [(some "U1", "GB Advanced Use"), (some "U2", "GC Core Use"),
        (some "U3", "GD Self-Service Use")]).gb_fue =
      some ((fue_summary [(some "U1", "GB Advanced Use"), (some "U2", "GC Core Use"),
        (some "U3", "GD Self-Service Use")]).gb_users : Int) ∧
    (fue_summary [(some "U1", "GB Advanced Use"), (some "U2", "GC Core Use"),
        (some "U3", "GD Self-Service Use")]).gc_fue =
      some ⌈((fue_summary [(some "U1", "GB Advanced Use"), (some "U2", "GC Core Use"),
        (some "U3", "GD Self-Service Use")]).gc_users : ℚ) * (1 / 5)⌉ ∧
    (fue_summary [(some "U1", "GB Advanced Use"), (some "U2", "GC Core Use"),
        (some "U3", "GD Self-Service Use")]).gd_fue =
      some ⌈((fue_summary [(some "U1", "GB Advanced Use"), (some "U2", "GC Core Use"),
        (some "U3", "GD Self-Service Use")]).gd_users : ℚ) * (1 / 30)⌉ ∧
    (fue_summary [(some "U1", "GB Advanced Use"), (some "U2", "GC Core Use"),
        (some "U3", "GD Self-Service Use")]).total_fue_required =
      some ⌈((fue_summary [(some "U1", "GB Advanced Use"), (some "U2", "GC Core Use"),
        (some "U3", "GD Self-Service Use")]).gb_users : ℚ) +
        ((fue_summary [(some "U1", "GB Advanced Use"), (some "U2", "GC Core Use"),
        (some "U3", "GD Self-Service Use")]).gc_users : ℚ) / 5 +
        ((fue_summary [(some "U1", "GB Advanced Use"), (some "U2", "GC Core Use"),
        (some "U3", "GD Self-Service Use")]).gd_users : ℚ) / 30⌉ :=
  fue_summary_spec [(some "U1", "GB Advanced Use"), (some "U2", "GC Core Use"),
    (some "U3", "GD Self-Service Use")] (by simp)

/-- Counterexample to C1 as stated: with one GC user and one GD user the
per-tier FUE values are 0, 1 and 1, whose sum is 2, while the computed
total FUE is `ceil(1/5 + 1/30) = 1` — the grand total is NOT the sum of
the per-tier ceiling-rounded values. -/
theorem fue_total_single_ceiling_cex :
    (fue_summary [(some "U1", "GC Core Use"),
        (some "U2", "GD Self-Service Use")]).gb_fue = some 0 ∧
    (fue_summary [(some "U1", "GC Core Use"),
        (some "U2", "GD Self-Service Use")]).gc_fue = some 1 ∧
    (fue_summary [(some "U1", "GC Core Use"),
        (some "U2", "GD Self-Service Use")]).gd_fue = some 1 ∧
    (fue_summary [(some "U1", "GC Core Use"),
        (some "U2", "GD Self-Service Use")]).total_fue_required = some 1 ∧
    (1 : Int) ≠ 0 + 1 + 1 := by
  refine ⟨?_, ?_, ?_, ?_, by decide⟩
  · simp [fue_summary, sqlCeilSum, gbTerm]
  · simp [fue_summary, sqlCeilSum, gcTerm]
    rw [Int.ceil_eq_iff]
    norm_num
  · simp [fue_summary, sqlCeilSum, gdTerm]
    rw [Int.ceil_eq_iff]
    norm_num
  · simp [fue_summary, sqlCeilSum, totalTerm]
    rw [Int.ceil_eq_iff]
    norm_num

/-- C7 (code bug confirmed at the failing input): on an empty join — no
users resolving to any recognized tier — the pivot returns zero user
counts but NULL (not zero) per-tier and total FUE values, because SQL
`SUM` over zero rows is NULL and the query does not coalesce it; the
explicit all-zero fallback structure in the code is unreachable since the
aggregate query always returns one row. -/
theorem pivot_empty_null_fue :
    get_simulation_license_classification_pivot_table [] [] =
      { total_users := 0, gb_users := 0, gc_users := 0, gd_users := 0,
        gb_fue := none, gc_fue := none, gd_fue := none,
        total_fue_required := none } ∧
    (none : Option Int) ≠ some 0 := by decide

theorem find_frontend_change_eq_none {changes : List SimulationChangePayload}
    {k : SimKey} (h : ∀ c ∈ changes, payloadKey c ≠ k) :
    find_frontend_change changes k = none := by
  unfold find_frontend_change
  rw [List.filter_eq_nil_iff.mpr (fun c hc => by simpa using h c hc)]
  rfl

/-- C3 (confirmed, under the data-model invariant that snapshot rows have
pairwise-distinct composite keys): the reconciled table has
`|S| + #(Add changes whose key is not already in S)` rows, and every
snapshot row whose key no change mentions is carried forward with its
pending operation cleared, its new value set to its original low value,
and its new classification set to its original baseline
classification. -/
theorem apply_simulation_changes_spec (records : List RoleObjLicSimRecord)
    (changes : List SimulationChangePayload) (authTable : List AuthObjFieldLicRecord)
    (hkeys : (records.map compositeKey).Nodup) :
    (apply_simulation_changes records changes authTable).records.length =
      records.length + changes.countP (isAddNotExisting records) ∧
    ∀ r ∈ records, (∀ c ∈ changes, payloadKey c ≠ compositeKey r) →
      ∃ r' ∈ (apply_simulation_changes records changes authTable).records,
        compositeKey r' = compositeKey r ∧ r'.OPERATION = none ∧
        r'.NEW_VALUE = r.LOW ∧ r'.NEW_SIM_LICE = r.CLASSIF_S4 := by
  constructor
  · simp [apply_simulation_changes, List.countP_eq_length_filter]
  · intro r hr hnomention
    refine ⟨applyChangeToRecord changes r,
      List.mem_append_left _ (List.mem_map_of_mem _ hr), ?_⟩
    have hfind : find_frontend_change changes (compositeKey r) = none :=
      find_frontend_change_eq_none hnomention
    unfold applyChangeToRecord
    rw [hfind]
    exact ⟨rfl, rfl, rfl, rfl⟩

/-- Witness for C3's theorem: a one-row snapshot with an empty change
batch reconciles to one row that copies its low value and baseline
classification forward. -/
theorem apply_simulation_changes_spec_witness :
    (apply_simulation_changes [sampleRecord] [] []).records.length =
      [sampleRecord].length +
        ([] : List SimulationChangePayload).countP (isAddNotExisting [sampleRecord]) ∧
    ∃ r' ∈ (apply_simulation_changes [sampleRecord] [] []).records,
      compositeKey r' = compositeKey sampleRecord ∧ r'.OPERATION = none ∧
      r'.NEW_VALUE = sampleRecord.LOW ∧ r'.NEW_SIM_LICE = sampleRecord.CLASSIF_S4 :=
  ⟨(apply_simulation_changes_spec [sampleRecord] [] [] (by decide)).1,
   (apply_simulation_changes_spec [sampleRecord] [] [] (by decide)).2
     sampleRecord (by decide) (by decide)⟩

theorem step1_counters_split (changes : List SimulationChangePayload)
    (r : RoleObjLicSimRecord) :
    (if step1CountsChanged changes r then 1 else 0) +
      (if step1CountsRemoved changes r then 1 else 0) =
      (if countedInStep1 changes r then (1 : Nat) else 0) := by
  unfold step1CountsChanged step1CountsRemoved countedInStep1
  rcases h : find_frontend_change changes (compositeKey r) with _ | c
  · simp
  · rcases ha : c.action with _ | a
    · simp [ha]
    · cases a <;> simp [ha]

/-- C10 (corrected): `changed_records + removed_records` equals the
number of snapshot rows whose matching change (if any) does NOT carry the
`Add` action — rows matched by an `Add` aimed at an existing key
increment neither counter, so the sum can fall short of `|S|`;
`changed_records` does count every merely copied-forward row. -/
theorem reconcile_counters_sum_spec (records : List RoleObjLicSimRecord)
    (changes : List SimulationChangePayload) (authTable : List AuthObjFieldLicRecord)
    (hkeys : (records.map compositeKey).Nodup) :
    (apply_simulation_changes records changes authTable).changed_records +
      (apply_simulation_changes records changes authTable).removed_records =
      records.countP (countedInStep1 changes) := by
  clear hkeys
  simp only [apply_simulation_changes]
  induction records with
  | nil => rfl
  | cons a t ih =>
    simp only [List.countP_cons]
    have hsplit := step1_counters_split changes a
    cases hc : step1CountsChanged changes a <;>
      cases hr : step1CountsRemoved changes a <;>
      cases hk : countedInStep1 changes a <;>
      simp [hc, hr, hk] at hsplit ⊢ <;> omega

/-- Witness for C10's theorem: with a one-row snapshot matched by an
`Add` change, both counters stay 0 and the counted predicate holds for no
row. -/
theorem reconcile_counters_sum_spec_witness :
    (apply_simulation_changes [sampleRecord] [addAtExistingKeyChange] []).changed_records +
      (apply_simulation_changes [sampleRecord] [addAtExistingKeyChange] []).removed_records =
      [sampleRecord].countP (countedInStep1 [addAtExistingKeyChange]) :=
  reconcile_counters_sum_spec [sampleRecord] [addAtExistingKeyChange] [] (by decide)

/-- Counterexample to C10 as stated: a one-row snapshot (distinct keys)
reconciled against a single `Add` change at that row's own key yields
`changed_records + removed_records = 0 ≠ 1 = |S|`. -/
theorem reconcile_counters_sum_cex :
    (List.map compositeKey [sampleRecord]).Nodup ∧
    (apply_simulation_changes [sampleRecord] [addAtExistingKeyChange] []).changed_records +
      (apply_simulation_changes [sampleRecord] [addAtExistingKeyChange] []).removed_records = 0 ∧
    ([sampleRecord] : List RoleObjLicSimRecord).length = 1 ∧ (0 : Nat) ≠ 1 := by decide

/-- C8 (confirmed): an `Add` change whose key is absent from the
snapshot, with no matching reference-table row but a UI text splitting
into at least three semicolon-delimited parts, synthesizes a row whose
new classification is the UI text's third part. -/
theorem add_fallback_license_spec (records : List RoleObjLicSimRecord)
    (changes : List SimulationChangePayload) (authTable : List AuthObjFieldLicRecord)
    (c : SimulationChangePayload) (s : String)
    (hc : c ∈ changes) (hact : c.action = some SimAction.add)
    (hnotin : ∀ r ∈ records, compositeKey r ≠ payloadKey c)
    (hnoref : ∀ a ∈ authTable, ¬(a.AUTHORIZATION_OBJECT = some c.object ∧
      a.FIELD = c.field_name ∧ a.ACTIVITIY = some c.value_low))
    (hui : c.new_value_ui_text = some s) (hs : s ≠ "")
    (hparts : 3 ≤ (pySplit ';' s).length) :
    newRecordForAdd authTable c ∈ (apply_simulation_changes records changes authTable).records ∧
    (newRecordForAdd authTable c).NEW_SIM_LICE = some ((pySplit ';' s).getD 2 "") := by
  constructor
  · apply List.mem_append_right
    apply List.mem_map_of_mem
    rw [List.mem_filter]
    refine ⟨hc, ?_⟩
    have hfindnone : records.find? (fun r => decide (compositeKey r = payloadKey c)) = none :=
      List.find?_eq_none.mpr (fun r hr => by simpa using hnotin r hr)
    simp [isAddNotExisting, hact, hfindnone]
  · have hfetch : (get_license_for_add_operation authTable c.object c.field_name c.value_low).1 = none := by
      unfold get_license_for_add_operation
      rw [List.find?_eq_none.mpr (fun a ha => by simpa using hnoref a ha)]
    show addNewLicense authTable c = _
    unfold addNewLicense
    rw [hfetch, hui]
    simp [truthy, hs, hparts]

/-- Witness for C8's theorem: the spec scenario — `Add` for
(R2, S_TCODE, TCD, F-02, "") with UI text
`"F-02;Post Document;GC Core Use"`, empty snapshot and empty reference
table — produces a new row classified from the UI text's third part. -/
theorem add_fallback_license_spec_witness :
    newRecordForAdd [] addScenarioChange ∈
      (apply_simulation_changes [] [addScenarioChange] []).records ∧
    (newRecordForAdd [] addScenarioChange).NEW_SIM_LICE =
      some ((pySplit ';' "F-02;Post Document;GC Core Use").getD 2 "") :=
  add_fallback_license_spec [] [addScenarioChange] [] addScenarioChange
    "F-02;Post Document;GC Core Use" (by decide) rfl (by decide) (by decide)
    rfl (by decide) (by decide)

/-- C5 (corrected): `run_simulation` inserts one result record per
snapshot row with a non-null pending operation (not per submitted
change), all sharing the run id and timestamp; the rows are created only
after the FUE aggregation — their `FUE_REQUIRED` already carries the
stringified computed total — with `STATUS` left NULL (never
`'In Progress'`), and they are never updated afterwards. -/
theorem run_simulation_inserted_records_spec (sim : List RoleObjLicSimRecord)
    (urm : List UserRoleMappingRecord) (runId ts client system : String) :
    (run_simulation_inserted_records sim urm runId ts client system).length =
      (sim.filter (fun r => r.OPERATION.isSome)).length ∧
    ∀ rec ∈ run_simulation_inserted_records sim urm runId ts client system,
      rec.SIMULATION_RUN_ID = runId ∧ rec.TIMESTAMP = ts ∧ rec.STATUS = none ∧
      rec.FUE_REQUIRED = pyStrOfTotal
        (get_simulation_license_classification_pivot_table sim urm).total_fue_required := by
  constructor
  · simp [run_simulation_inserted_records]
  · intro rec hrec
    simp only [run_simulation_inserted_records, List.mem_map] at hrec
    obtain ⟨r, _, rfl⟩ := hrec
    exact ⟨rfl, rfl, rfl, rfl⟩

/-- Witness for C5's theorem at a one-row changed snapshot: the single
inserted record carries the run id, timestamp, a NULL status and the
stringified total FUE. -/
theorem run_simulation_inserted_records_spec_witness :
    (run_simulation_inserted_records changedSnapshot [] "SIM100000"
        "2026-01-01 00:00:00" "c" "s").length =
      (changedSnapshot.filter (fun r => r.OPERATION.isSome)).length ∧
    (sampleInsertedRecord.SIMULATION_RUN_ID = "SIM100000" ∧
      sampleInsertedRecord.TIMESTAMP = "2026-01-01 00:00:00" ∧
      sampleInsertedRecord.STATUS = none ∧
      sampleInsertedRecord.FUE_REQUIRED = pyStrOfTotal
        (get_simulation_license_classification_pivot_table changedSnapshot
          []).total_fue_required) :=
  ⟨(run_simulation_inserted_records_spec changedSnapshot [] "SIM100000"
      "2026-01-01 00:00:00" "c" "s").1,
   (run_simulation_inserted_records_spec changedSnapshot [] "SIM100000"
      "2026-01-01 00:00:00" "c" "s").2 sampleInsertedRecord (by decide)⟩

/-- Counterexample to C5 as stated: in a concrete run the inserted record
has a NULL `STATUS`, not `'In Progress'`. -/
theorem run_simulation_status_cex :
    (run_simulation_inserted_records changedSnapshot [] "SIM100000"
        "2026-01-01 00:00:00" "c" "s").map (·.STATUS) = [none] ∧
    (none : Option String) ≠ some "In Progress" := by decide

/-- C6 (corrected): the snapshot table is cleared only on the success
path (and even then only when the delete sub-step itself succeeds —
otherwise it is rolled back while the run still reports success); when
the run body fails, everything is rolled back and the snapshot content
survives untouched. -/
theorem run_simulation_snapshot_cleanup (sim : List RoleObjLicSimRecord)
    (urm : List UserRoleMappingRecord) (resultTable : List SimulationResultRecord)
    (runId ts client system : String) :
    (run_simulation sim urm resultTable runId ts client system true true).snapshot = [] ∧
    (run_simulation sim urm resultTable runId ts client system true false).snapshot = sim ∧
    ∀ d : Bool,
      (run_simulation sim urm resultTable runId ts client system false d).snapshot = sim :=
  ⟨rfl, rfl, fun _ => rfl⟩

/-- Counterexample to C6 as stated: a failed run leaves the nonempty
snapshot in place — it is not deleted on failure. -/
theorem run_simulation_failure_keeps_snapshot_cex :
    (run_simulation changedSnapshot [] [] "SIM100000" "2026-01-01 00:00:00"
        "c" "s" false true).snapshot = changedSnapshot ∧
    changedSnapshot ≠ [] ∧
    (run_simulation changedSnapshot [] [] "SIM100000" "2026-01-01 00:00:00"
        "c" "s" false true).success = false := by decide

/-- C9 (confirmed): run-id sequencing with the `SIM` prefix — from the
last persisted id `SIM100005` the next run id is `SIM100006`, and a
malformed non-numeric suffix falls back to `SIM100000`. -/
theorem get_next_simulation_id_scenarios :
    get_next_simulation_id_for_table (some "SIM100005") = "SIM100006" ∧
    get_next_simulation_id_for_table (some "SIMABC") = "SIM100000" :=
  ⟨rfl, rfl⟩

end FueSim
